import Mathlib

/-!
Verification development for the realtime chat backend (Backend-chatter).

The definitions below are a shallow embedding of the messaging / presence /
gateway core of the repository:

* src/src/models/Message.js        — message record, generateConversationId,
                                      markAsRead, softDelete
* src/src/config/redis.js          — onlineUsers, messageCache,
                                      typingIndicators helpers over an
                                      optional (possibly unreachable) client
* socket gateway (socket setup)    — the socket event handlers
                                      join-conversation, send-message,
                                      typing-start, typing-stop, mark-as-read,
                                      delete-message, disconnect
* src/src/services/messageService.js — sendTextMessage, deleteMessage

Machine state is passed explicitly; wall-clock times are natural numbers
(seconds); database failures are modelled by a boolean dbUp flag (a raised
store call lands in the handler catch block exactly as in the source).
-/

namespace Chatter

/-- Message record as persisted by the Store (src/src/models/Message.js).
Sender and receiver are user-id strings; readAt and deletedAt are absolute
times in seconds. -/
structure Msg where
  id : String
  conversationId : String
  sender : String
  receiver : String
  messageType : String
  content : String
  isRead : Bool
  readAt : Option Nat
  isDeleted : Bool
  deletedAt : Option Nat
deriving DecidableEq, Repr

/-- User record: id, username and list of friend ids (src/src/models/User.js). -/
structure UserRec where
  id : String
  username : String
  friends : List String
deriving DecidableEq, Repr

/-- The Store collection of messages. -/
abbrev Store := List Msg

/-- Message.findById: first message whose id matches. -/
def findById (store : Store) (mid : String) : Option Msg :=
  store.find? (fun x => x.id = mid)

/-- message.save(): the document with this id is replaced by the updated one. -/
def saveMsg (store : Store) (m : Msg) : Store :=
  store.map (fun x => if x.id = m.id then m else x)

/-- User.findById over the user collection. -/
def findUser (users : List UserRec) (uid : String) : Option UserRec :=
  users.find? (fun x => x.id = uid)

/-- generateConversationId from src/src/models/Message.js: the two user ids
sorted and joined with an underscore. -/
def generateConversationId (userId1 userId2 : String) : String :=
  if userId1 ≤ userId2 then userId1 ++ "_" ++ userId2 else userId2 ++ "_" ++ userId1

/-! ## Shared backbone (src/src/config/redis.js)

The ioredis client is modelled as an optional RedisClient: none when
REDIS_ENABLED is false (the module exports null clients), and when present an
up flag says whether the backbone is reachable — every command on a client
with up = false raises, which the helper functions catch, returning their
safe default without mutating anything. -/

/-- The data held by the backbone that the core uses. msgKV keys are the
message:<id> cache entries (value and the TTL they were set with); typingKV
keys are typing:<conversationId>:<userId> entries with their absolute expiry
time. -/
structure RedisData where
  onlineSet : List String
  sessions : List (String × Nat)
  msgKV : List (String × Msg × Nat)
  typingKV : List (String × Nat)
deriving DecidableEq, Repr

/-- A reachable-or-not backbone client. -/
structure RedisClient where
  up : Bool
  data : RedisData
deriving DecidableEq, Repr

/-- onlineUsers.add: SADD to online_users and HSET user_sessions; skipped when
the client is absent; a raised command is caught (state unchanged). -/
def onlineUsers.add (client : Option RedisClient) (userId : String) (now : Nat) :
    Option RedisClient :=
  match client with
  | none => none
  | some c =>
    if c.up then
      some { c with data := { c.data with
        onlineSet := if userId ∈ c.data.onlineSet then c.data.onlineSet
                     else userId :: c.data.onlineSet,
        sessions := (userId, now) :: c.data.sessions.filter (fun p => p.1 ≠ userId) } }
    else some c

/-- onlineUsers.remove: SREM and HDEL; skipped when absent; caught on failure. -/
def onlineUsers.remove (client : Option RedisClient) (userId : String) :
    Option RedisClient :=
  match client with
  | none => none
  | some c =>
    if c.up then
      some { c with data := { c.data with
        onlineSet := c.data.onlineSet.filter (fun u => u ≠ userId),
        sessions := c.data.sessions.filter (fun p => p.1 ≠ userId) } }
    else some c

/-- onlineUsers.isOnline: SISMEMBER; false when the client is absent or the
command raises. -/
def onlineUsers.isOnline (client : Option RedisClient) (userId : String) : Bool :=
  match client with
  | none => false
  | some c => if c.up then (if userId ∈ c.data.onlineSet then true else false) else false

/-- onlineUsers.getAll: SMEMBERS; empty when absent or raising. -/
def onlineUsers.getAll (client : Option RedisClient) : List String :=
  match client with
  | none => []
  | some c => if c.up then c.data.onlineSet else []

/-- onlineUsers.count: SCARD; zero when absent or raising. -/
def onlineUsers.count (client : Option RedisClient) : Nat :=
  match client with
  | none => 0
  | some c => if c.up then c.data.onlineSet.length else 0

/-- The key of a cached message. -/
def messageKey (messageId : String) : String := "message:" ++ messageId

/-- messageCache.set: SETEX message:<id> with the given TTL; skipped when the
client is absent; a raised command is caught. -/
def messageCache.set (client : Option RedisClient) (messageId : String)
    (messageData : Msg) (ttl : Nat) : Option RedisClient :=
  match client with
  | none => none
  | some c =>
    if c.up then
      some { c with data := { c.data with
        msgKV := (messageKey messageId, messageData, ttl) ::
                 c.data.msgKV.filter (fun e => e.1 ≠ messageKey messageId) } }
    else some c

/-- messageCache.get: GET message:<id>; null when absent, missing or raising. -/
def messageCache.get (client : Option RedisClient) (messageId : String) : Option Msg :=
  match client with
  | none => none
  | some c =>
    if c.up then (c.data.msgKV.find? (fun e => e.1 = messageKey messageId)).map (fun e => e.2.1)
    else none

/-- messageCache.delete: DEL message:<id>; skipped when absent; caught. -/
def messageCache.delete (client : Option RedisClient) (messageId : String) :
    Option RedisClient :=
  match client with
  | none => none
  | some c =>
    if c.up then
      some { c with data := { c.data with
        msgKV := c.data.msgKV.filter (fun e => e.1 ≠ messageKey messageId) } }
    else some c

/-- The key of a typing indicator. -/
def typingKey (conversationId userId : String) : String :=
  "typing:" ++ conversationId ++ ":" ++ userId

/-- typingIndicators.set: SETEX typing:<conversationId>:<userId> 5 — the entry
expires five seconds after it is written. -/
def typingIndicators.set (client : Option RedisClient) (conversationId userId : String)
    (now : Nat) : Option RedisClient :=
  match client with
  | none => none
  | some c =>
    if c.up then
      some { c with data := { c.data with
        typingKV := (typingKey conversationId userId, now + 5) ::
                    c.data.typingKV.filter (fun e => e.1 ≠ typingKey conversationId userId) } }
    else some c

/-- typingIndicators.remove: DEL of the typing key; skipped when absent. -/
def typingIndicators.remove (client : Option RedisClient) (conversationId userId : String) :
    Option RedisClient :=
  match client with
  | none => none
  | some c =>
    if c.up then
      some { c with data := { c.data with
        typingKV := c.data.typingKV.filter (fun e => e.1 ≠ typingKey conversationId userId) } }
    else some c

/-- typingIndicators.isTyping: EXISTS of the typing key — an entry whose expiry
has passed no longer exists; false when the client is absent or raising. -/
def typingIndicators.isTyping (client : Option RedisClient) (conversationId userId : String)
    (now : Nat) : Bool :=
  match client with
  | none => false
  | some c =>
    if c.up then
      match c.data.typingKV.find? (fun e => e.1 = typingKey conversationId userId) with
      | some e => now < e.2
      | none => false
    else false

/-! ## Gateway (socket setup in the socket configuration module)

The gateway keeps a local map userId → socketId (activeUsers), socket room
memberships, a local typingUsers map conversationId → set of userIds, and the
optional backbone client. Each inbound-event handler returns the new state
together with the list of outbound effects it produced, in order. A raised
store call (Message.findById, save, User.findById) is modelled by dbUp =
false and lands in the handler catch block exactly as in the source; a
publish on a present-but-unreachable backbone raises and also lands in the
catch block; the redis helper functions never raise (they catch internally). -/

/-- An outbound effect of a handler: an emit to one socket, an emit back to
the triggering socket, a broadcast to every local client, or a backbone
publication. -/
inductive Payload where
  | message (m : Msg)
  | errorInfo (text : String)
  | messageRead (messageId : String) (readAt : Option Nat)
  | messageDeleted (messageId : String)
  | conversationJoined (conversationId friendId : String)
  | typingStartInfo (userId username conversationId : String)
  | typingStopInfo (userId conversationId : String)
  | userStatus (userId : String) (timestamp : Nat)
  | onlineUsersList (users : List String)
  | newMessagePub (m : Msg) (receiverId senderId : String)
  | messageReadPub (messageId : String) (readAt : Option Nat) (senderId : String)
  | messageDeletedPub (messageId deletedBy friendId : String)
  | userTypingPub (userId : String) (username : Option String) (friendId action : String)
  | userStatusPub (userId : String) (isOnline : Bool) (timestamp : Nat)
deriving DecidableEq, Repr

/-- Outbound effect: io.to(socketId).emit, socket.emit, io.emit, or
redisPublisher.publish. -/
inductive OutEvent where
  | emit (socketId : String) (event : String) (p : Payload)
  | emitSelf (event : String) (p : Payload)
  | broadcast (event : String) (p : Payload)
  | publish (channel : String) (p : Payload)
deriving DecidableEq, Repr

/-- activeUsers.get: socket id of a locally connected user. -/
def auGet (au : List (String × String)) (uid : String) : Option String :=
  (au.find? (fun p => p.1 = uid)).map (fun p => p.2)

/-- activeUsers.delete. -/
def auDelete (au : List (String × String)) (uid : String) : List (String × String) :=
  au.filter (fun p => p.1 ≠ uid)

/-- typingUsers: add a user to the set of a conversation, creating the set
when absent (Map of Sets in the source). -/
def tlAdd (tl : List (String × List String)) (cid uid : String) :
    List (String × List String) :=
  match tl.find? (fun p => p.1 = cid) with
  | some _ => tl.map (fun p =>
      if p.1 = cid then (p.1, if uid ∈ p.2 then p.2 else uid :: p.2) else p)
  | none => (cid, [uid]) :: tl

/-- typingUsers: delete a user from the set of a conversation, dropping the
conversation entry when its set becomes empty. -/
def tlRemove (tl : List (String × List String)) (cid uid : String) :
    List (String × List String) :=
  (tl.map (fun p => if p.1 = cid then (p.1, p.2.filter (fun u => u ≠ uid)) else p)).filter
    (fun p => ¬(p.1 = cid ∧ p.2 = []))

/-- typingUsers cleanup on disconnect: the user is deleted from every
conversation set and conversations whose set became empty are dropped. -/
def tlClearUser (tl : List (String × List String)) (uid : String) :
    List (String × List String) :=
  (tl.map (fun p => (p.1, p.2.filter (fun u => u ≠ uid)))).filter (fun p => p.2 ≠ [])

/-- Gateway state: store and user collections, the optional backbone client,
the local connection map, socket room memberships (userId, room), and the
local typing map. -/
structure GWState where
  users : List UserRec
  store : Store
  redis : Option RedisClient
  activeUsers : List (String × String)
  rooms : List (String × String)
  typingUsers : List (String × List String)
deriving DecidableEq, Repr

/-- Delivery tail of the send-message handler: emit receive-message to the
receiver's socket when locally connected, then publish new_message (payload
message, receiverId, senderId = the session user). A raised publish is caught
and answered with the handler catch-block error emit. -/
def sendDeliver (st : GWState) (message : Msg) (userId : String) :
    GWState × List OutEvent :=
  let localEv := match auGet st.activeUsers message.receiver with
    | some sid => [OutEvent.emit sid "receive-message" (Payload.message message)]
    | none => []
  match st.redis with
  | none => (st, localEv)
  | some c =>
    if c.up then
      (st, localEv ++ [OutEvent.publish "new_message"
        (Payload.newMessagePub message message.receiver userId)])
    else
      (st, localEv ++ [OutEvent.emitSelf "error" (Payload.errorInfo "Failed to send message")])

/-- socket.on send-message: cache lookup first, fall back to the Store
(re-populating the cache on fallback, TTL 3600); a lookup miss answers with a
scoped error emit; a raised store call is caught and answered with a scoped
error emit. No check relates the session user to the message. -/
def handleSendMessage (st : GWState) (dbUp : Bool) (userId messageId : String) :
    GWState × List OutEvent :=
  match messageCache.get st.redis messageId with
  | some message => sendDeliver st message userId
  | none =>
    if dbUp then
      match findById st.store messageId with
      | none => (st, [OutEvent.emitSelf "error" (Payload.errorInfo "Message not found")])
      | some message =>
        sendDeliver { st with redis := messageCache.set st.redis messageId message 3600 }
          message userId
    else
      (st, [OutEvent.emitSelf "error" (Payload.errorInfo "Failed to send message")])

/-- socket.on join-conversation: only friends may join; a missing user record
raises on the friends access and is caught; refusal emits a scoped error and
joins nothing; success joins the ConversationID room and emits
conversation-joined. -/
def handleJoinConversation (st : GWState) (dbUp : Bool) (userId friendId : String) :
    GWState × List OutEvent :=
  if dbUp then
    match findUser st.users userId with
    | none => (st, [OutEvent.emitSelf "error" (Payload.errorInfo "Failed to join conversation")])
    | some user =>
      if friendId ∈ user.friends then
        ({ st with rooms := (userId, generateConversationId userId friendId) :: st.rooms },
         [OutEvent.emitSelf "conversation-joined"
           (Payload.conversationJoined (generateConversationId userId friendId) friendId)])
      else
        (st, [OutEvent.emitSelf "error" (Payload.errorInfo "You can only chat with friends")])
  else
    (st, [OutEvent.emitSelf "error" (Payload.errorInfo "Failed to join conversation")])

/-- socket.on typing-start: record in the local typing map, SETEX the backbone
typing entry (5 s TTL), emit typing-start to the friend when locally
connected, publish user_typing start. A raised publish is caught and only
logged. -/
def handleTypingStart (st : GWState) (userId username friendId : String) (now : Nat) :
    GWState × List OutEvent :=
  let conversationId := generateConversationId userId friendId
  let st' := { st with
    typingUsers := tlAdd st.typingUsers conversationId userId,
    redis := typingIndicators.set st.redis conversationId userId now }
  let localEv := match auGet st'.activeUsers friendId with
    | some sid => [OutEvent.emit sid "typing-start"
        (Payload.typingStartInfo userId username conversationId)]
    | none => []
  let pubEv := match st'.redis with
    | none => []
    | some c =>
      if c.up then [OutEvent.publish "user_typing"
        (Payload.userTypingPub userId (some username) friendId "start")]
      else []
  (st', localEv ++ pubEv)

/-- socket.on typing-stop: delete from the local typing map, DEL the backbone
typing entry, emit typing-stop to the friend when locally connected, publish
user_typing stop. A raised publish is caught and only logged. -/
def handleTypingStop (st : GWState) (userId friendId : String) :
    GWState × List OutEvent :=
  let conversationId := generateConversationId userId friendId
  let st' := { st with
    typingUsers := tlRemove st.typingUsers conversationId userId,
    redis := typingIndicators.remove st.redis conversationId userId }
  let localEv := match auGet st'.activeUsers friendId with
    | some sid => [OutEvent.emit sid "typing-stop"
        (Payload.typingStopInfo userId conversationId)]
    | none => []
  let pubEv := match st'.redis with
    | none => []
    | some c =>
      if c.up then [OutEvent.publish "user_typing"
        (Payload.userTypingPub userId none friendId "stop")]
      else []
  (st', localEv ++ pubEv)

/-- socket.on mark-as-read: only when the message exists, the session user is
its stored receiver and it is not already read, set isRead and readAt, save,
refresh the cache (TTL 3600), emit message-read to the sender when locally
connected and publish message_read; otherwise do nothing. Every failure
(lookup miss included) is silent: the catch block only logs. -/
def handleMarkAsRead (st : GWState) (dbUp : Bool) (userId messageId : String) (now : Nat) :
    GWState × List OutEvent :=
  if dbUp then
    match findById st.store messageId with
    | some message =>
      if message.receiver = userId ∧ message.isRead = false then
        let m' := { message with isRead := true, readAt := some now }
        let st' := { st with
          store := saveMsg st.store m',
          redis := messageCache.set st.redis messageId m' 3600 }
        let localEv := match auGet st'.activeUsers m'.sender with
          | some sid => [OutEvent.emit sid "message-read"
              (Payload.messageRead messageId m'.readAt)]
          | none => []
        let pubEv := match st'.redis with
          | none => []
          | some c =>
            if c.up then [OutEvent.publish "message_read"
              (Payload.messageReadPub messageId m'.readAt m'.sender)]
            else []
        (st', localEv ++ pubEv)
      else (st, [])
    | none => (st, [])
  else (st, [])

/-- socket.on delete-message: a lookup miss answers with a scoped error emit;
otherwise the other participant is computed (receiver when the session user
is the sender, else the sender — no sender check), the cache entry is
deleted, message-deleted is emitted to the other participant when locally
connected and message_deleted is published. The Store record is not touched
by this handler. A raised store call or publish is caught and only logged. -/
def handleDeleteMessage (st : GWState) (dbUp : Bool) (userId messageId : String) :
    GWState × List OutEvent :=
  if dbUp then
    match findById st.store messageId with
    | none => (st, [OutEvent.emitSelf "error" (Payload.errorInfo "Message not found")])
    | some message =>
      let friendId := if message.sender = userId then message.receiver else message.sender
      let st' := { st with redis := messageCache.delete st.redis messageId }
      let localEv := match auGet st'.activeUsers friendId with
        | some sid => [OutEvent.emit sid "message-deleted" (Payload.messageDeleted messageId)]
        | none => []
      let pubEv := match st'.redis with
        | none => []
        | some c =>
          if c.up then [OutEvent.publish "message_deleted"
            (Payload.messageDeletedPub messageId userId friendId)]
          else []
      (st', localEv ++ pubEv)
  else (st, [])

/-- socket.on disconnect: delete from the local connection map, remove from
the backbone online set, clear the user from every local typingUsers set,
broadcast user-offline to all local clients and publish user_status offline.
The backbone typing entries are not touched. -/
def handleDisconnect (st : GWState) (userId : String) (now : Nat) :
    GWState × List OutEvent :=
  let st' := { st with
    activeUsers := auDelete st.activeUsers userId,
    redis := onlineUsers.remove st.redis userId,
    typingUsers := tlClearUser st.typingUsers userId }
  let pubEv := match st'.redis with
    | none => []
    | some c =>
      if c.up then [OutEvent.publish "user_status" (Payload.userStatusPub userId false now)]
      else []
  (st', [OutEvent.broadcast "user-offline" (Payload.userStatus userId now)] ++ pubEv)

/-! ## Message service (src/src/services/messageService.js) -/

/-- checkFriendship: look up the first user and require the second in their
friends list. -/
def checkFriendship (users : List UserRec) (userId1 userId2 : String) :
    Except String Unit :=
  match findUser users userId1 with
  | none => Except.error "User not found"
  | some user =>
    if userId2 ∈ user.friends then Except.ok ()
    else Except.error "You can only send messages to your friends"

/-- The message document created by sendTextMessage (newId stands for the
Store-assigned object id). -/
def newTextMsg (senderId receiverId content newId : String) : Msg :=
  { id := newId,
    conversationId := generateConversationId senderId receiverId,
    sender := senderId, receiver := receiverId,
    messageType := "text", content := content.trim,
    isRead := false, readAt := none, isDeleted := false, deletedAt := none }

/-- sendTextMessage: friendship check, append-only create, then cache the
message with TTL 3600. -/
def sendTextMessage (users : List UserRec) (store : Store) (redis : Option RedisClient)
    (senderId receiverId content newId : String) :
    Except String (Store × Option RedisClient × Msg) :=
  match checkFriendship users senderId receiverId with
  | Except.error e => Except.error e
  | Except.ok _ =>
    let message := newTextMsg senderId receiverId content newId
    Except.ok (store ++ [message], messageCache.set redis newId message 3600, message)

/-- deleteMessage (service): only the sender may delete; the record is
soft-deleted (isDeleted and deletedAt set, record kept) and the cache entry
is removed. -/
def deleteMessage (store : Store) (redis : Option RedisClient) (messageId userId : String)
    (now : Nat) : Except String (Store × Option RedisClient) :=
  match findById store messageId with
  | none => Except.error "Message not found"
  | some message =>
    if message.sender = userId then
      Except.ok (saveMsg store { message with isDeleted := true, deletedAt := some now },
                 messageCache.delete redis messageId)
    else Except.error "You can only delete messages you sent"

/-! ## Helper lemmas -/

/-- After a save of a message carrying an already-present id, findById returns
the saved version. -/
theorem findById_saveMsg (store : Store) (m m' : Msg)
    (h : findById store m.id = some m) (hid : m'.id = m.id) :
    findById (saveMsg store m') m.id = some m' := by
  induction store with
  | nil => simp [findById] at h
  | cons x xs ih =>
    by_cases hx : x.id = m.id
    · have hxm : x = m := by
        simpa [findById, List.find?_cons_of_pos, hx] using h
      subst hxm
      simp [findById, saveMsg, List.find?_cons_of_pos, hx, hid]
    · have htail : findById xs m.id = some m := by
        simpa [findById, List.find?_cons_of_neg, hx] using h
      have hxm' : ¬(x.id = m'.id) := by
        rw [hid]; exact hx
      have := ih htail
      simpa [findById, saveMsg, List.find?_cons_of_neg, hx, hxm'] using this

/-- A fresh id is found in an appended store. -/
theorem findById_append_fresh (store : Store) (m : Msg)
    (h : findById store m.id = none) :
    findById (store ++ [m]) m.id = some m := by
  induction store with
  | nil => simp [findById]
  | cons x xs ih =>
    by_cases hx : x.id = m.id
    · simp [findById, List.find?_cons_of_pos, hx] at h
    · have htail : findById xs m.id = none := by
        simpa [findById, List.find?_cons_of_neg, hx] using h
      have := ih htail
      simpa [findById, List.find?_cons_of_neg, hx] using this

/-- After messageCache.delete the cached entry is gone, whatever the state of
the client. -/
theorem messageCache.get_delete (client : Option RedisClient) (mid : String) :
    messageCache.get (messageCache.delete client mid) mid = none := by
  match client with
  | none => rfl
  | some c =>
    by_cases hup : c.up
    · simp only [messageCache.delete, messageCache.get, hup, if_true]
      rw [List.find?_eq_none.mpr]
      · rfl
      · intro e he
        have := (List.mem_filter.mp he).2
        simpa using this
    · simp [messageCache.delete, messageCache.get, hup]

/-- A typing entry written at time t no longer tests as typing once its
five-second TTL has elapsed. -/
theorem isTyping_after_set (client : Option RedisClient) (cid uid : String) (t tq : Nat)
    (h : t + 5 ≤ tq) :
    typingIndicators.isTyping (typingIndicators.set client cid uid t) cid uid tq = false := by
  match client with
  | none => rfl
  | some c =>
    by_cases hup : c.up
    · simp only [typingIndicators.set, typingIndicators.isTyping, hup, if_true]
      rw [List.find?_cons_of_pos]
      · simp only [decide_eq_false_iff_not]
        omega
      · simp
    · simp [typingIndicators.set, typingIndicators.isTyping, hup]

/-! ## Claims -/

/-- Claim C1: for every pair of user identifiers a and b,
generateConversationId(a, b) equals generateConversationId(b, a), and the
function is deterministic: the same pair always yields the same key. -/
theorem generateConversationId_comm_stable (a b : String) :
    generateConversationId a b = generateConversationId b a ∧
    generateConversationId a b = generateConversationId a b := by
  refine ⟨?_, rfl⟩
  unfold generateConversationId
  by_cases hab : a ≤ b
  · by_cases hba : b ≤ a
    · have h : a = b := le_antisymm hab hba
      subst h; rfl
    · rw [if_pos hab, if_neg hba]
  · have hba : b ≤ a := le_of_not_le hab
    rw [if_neg hab, if_pos hba]

/-- Claim C4: when the backbone is unavailable — the client is absent or any
backbone call raises — every Presence Registry operation returns its safe
default: isOnline false, getAll empty, count zero, and add and remove return
(leaving the client unchanged) instead of propagating a failure. -/
theorem presence_degrades_safely (client : Option RedisClient) (userId : String) (now : Nat)
    (h : client = none ∨ ∃ c, client = some c ∧ c.up = false) :
    onlineUsers.isOnline client userId = false ∧
    onlineUsers.getAll client = [] ∧
    onlineUsers.count client = 0 ∧
    onlineUsers.add client userId now = client ∧
    onlineUsers.remove client userId = client := by
  rcases h with h | ⟨c, hc, hup⟩
  · subst h
    exact ⟨rfl, rfl, rfl, rfl, rfl⟩
  · subst hc
    simp [onlineUsers.isOnline, onlineUsers.getAll, onlineUsers.count,
      onlineUsers.add, onlineUsers.remove, hup]

/-- Witness for claim C4 at the concrete absent client. -/
theorem presence_degrades_safely_witness :
    onlineUsers.isOnline none "alice" = false ∧
    onlineUsers.getAll none = [] ∧
    onlineUsers.count none = 0 ∧
    onlineUsers.add none "alice" 0 = none ∧
    onlineUsers.remove none "alice" = none :=
  presence_degrades_safely none "alice" 0 (Or.inl rfl)

/-- Claim C6: a typing-start with no following typing-stop expires after five
seconds: once the TTL has elapsed, isTyping for that (conversationID, userID)
returns false without any stop signal. Stated on the typing-start handler. -/
theorem typing_ttl_expiry (st : GWState) (userId username friendId : String) (t tq : Nat)
    (h : t + 5 ≤ tq) :
    typingIndicators.isTyping (handleTypingStart st userId username friendId t).1.redis
      (generateConversationId userId friendId) userId tq = false := by
  have hred : (handleTypingStart st userId username friendId t).1.redis =
      typingIndicators.set st.redis (generateConversationId userId friendId) userId t := by
    simp [handleTypingStart]
  rw [hred]
  exact isTyping_after_set st.redis _ userId t tq h

/-- The empty backbone data. -/
def emptyRedisData : RedisData :=
  { onlineSet := [], sessions := [], msgKV := [], typingKV := [] }

/-- A reachable backbone client with empty data. -/
def upClient : RedisClient := { up := true, data := emptyRedisData }

/-- A gateway state with a reachable empty backbone and nothing connected. -/
def exStateC6 : GWState :=
  { users := [], store := [], redis := some upClient,
    activeUsers := [], rooms := [], typingUsers := [] }

/-- Witness for claim C6: a typing-start at time 0 is no longer typing at
time 5. -/
theorem typing_ttl_expiry_witness :
    typingIndicators.isTyping (handleTypingStart exStateC6 "a" "Alice" "b" 0).1.redis
      (generateConversationId "a" "b") "a" 5 = false :=
  typing_ttl_expiry exStateC6 "a" "Alice" "b" 0 5 (by decide)

/-- When the gate (receiver match and unread) fails, mark-as-read is a strict
no-op. -/
theorem markAsRead_noop (s : GWState) (u mid : String) (t : Nat) (m : Msg)
    (hfind : findById s.store mid = some m)
    (hgate : ¬(m.receiver = u ∧ m.isRead = false)) :
    handleMarkAsRead s true u mid t = (s, []) := by
  simp [handleMarkAsRead, hfind, hgate]

/-- Claim C2: mark-as-read is receiver-gated and idempotent. The handler
mutates the message (isRead, readAt) and emits the message-read relay only
when the session user is the stored receiver and the message is unread;
otherwise it is a strict no-op. After a first successful mark at time t1, a
second mark leaves the state (readAt included) unchanged and emits no
events. -/
theorem markAsRead_receiver_gated_idempotent (st : GWState) (u mid : String) (t1 t2 : Nat)
    (m : Msg) (hfind : findById st.store mid = some m) :
    (¬(m.receiver = u ∧ m.isRead = false) → handleMarkAsRead st true u mid t1 = (st, [])) ∧
    (m.receiver = u → m.isRead = false →
      findById (handleMarkAsRead st true u mid t1).1.store mid =
        some { m with isRead := true, readAt := some t1 } ∧
      (∀ sid, auGet st.activeUsers m.sender = some sid →
        OutEvent.emit sid "message-read" (Payload.messageRead mid (some t1)) ∈
          (handleMarkAsRead st true u mid t1).2) ∧
      handleMarkAsRead (handleMarkAsRead st true u mid t1).1 true u mid t2 =
        ((handleMarkAsRead st true u mid t1).1, [])) := by
  have hmid : m.id = mid := by
    have := List.find?_some hfind
    simpa using this
  constructor
  · intro hgate
    exact markAsRead_noop st u mid t1 m hfind hgate
  · intro hr hnr
    have hst1 : (handleMarkAsRead st true u mid t1).1 =
        { st with store := saveMsg st.store { m with isRead := true, readAt := some t1 },
                  redis := messageCache.set st.redis mid
                    { m with isRead := true, readAt := some t1 } 3600 } := by
      simp [handleMarkAsRead, hfind, hr, hnr]
    have hfind1 : findById (handleMarkAsRead st true u mid t1).1.store mid =
        some { m with isRead := true, readAt := some t1 } := by
      rw [hst1]
      subst hmid
      exact findById_saveMsg st.store m _ hfind rfl
    refine ⟨hfind1, ?_, ?_⟩
    · intro sid hsid
      simp [handleMarkAsRead, hfind, hr, hnr, hsid]
    · exact markAsRead_noop _ u mid t2 _ hfind1 (by simp)

/-- An unread message from a to b. -/
def exMsgC2 : Msg :=
  { id := "m1", conversationId := "a_b", sender := "a", receiver := "b",
    messageType := "text", content := "hi", isRead := false, readAt := none,
    isDeleted := false, deletedAt := none }

/-- A state holding exMsgC2 with both participants locally connected. -/
def exStateC2 : GWState :=
  { users := [], store := [exMsgC2], redis := some upClient,
    activeUsers := [("a", "sockA"), ("b", "sockB")], rooms := [], typingUsers := [] }

/-- Witness for claim C2: the receiver marks at time 3, the sender gets the
receipt, and a second mark at time 7 changes nothing and emits nothing. -/
theorem markAsRead_receiver_gated_idempotent_witness :
    findById (handleMarkAsRead exStateC2 true "b" "m1" 3).1.store "m1" =
      some { exMsgC2 with isRead := true, readAt := some 3 } ∧
    OutEvent.emit "sockA" "message-read" (Payload.messageRead "m1" (some 3)) ∈
      (handleMarkAsRead exStateC2 true "b" "m1" 3).2 ∧
    handleMarkAsRead (handleMarkAsRead exStateC2 true "b" "m1" 3).1 true "b" "m1" 7 =
      ((handleMarkAsRead exStateC2 true "b" "m1" 3).1, []) := by
  have h := markAsRead_receiver_gated_idempotent exStateC2 "b" "m1" 3 7 exMsgC2 (by decide)
  have h2 := h.2 rfl rfl
  exact ⟨h2.1, h2.2.1 "sockA" (by decide), h2.2.2⟩

/-- Claim C5: join-conversation refuses non-friends with a scoped error and
joins nothing, and for friends joins the ConversationID room and emits
conversation-joined. -/
theorem joinConversation_friend_gate (st : GWState) (u f : String) (user : UserRec)
    (huser : findUser st.users u = some user) :
    (f ∉ user.friends →
      handleJoinConversation st true u f =
        (st, [OutEvent.emitSelf "error" (Payload.errorInfo "You can only chat with friends")])) ∧
    (f ∈ user.friends →
      handleJoinConversation st true u f =
        ({ st with rooms := (u, generateConversationId u f) :: st.rooms },
         [OutEvent.emitSelf "conversation-joined"
           (Payload.conversationJoined (generateConversationId u f) f)])) := by
  constructor
  · intro hnf
    simp [handleJoinConversation, huser, hnf]
  · intro hf
    simp [handleJoinConversation, huser, hf]

/-- User a whose only friend is b. -/
def exUserA : UserRec := { id := "a", username := "A", friends := ["b"] }

/-- A state holding exUserA. -/
def exStateC5 : GWState :=
  { users := [exUserA], store := [], redis := none,
    activeUsers := [], rooms := [], typingUsers := [] }

/-- Witness for claim C5: joining non-friend c is refused with an error and no
room; joining friend b joins the conversation room. -/
theorem joinConversation_friend_gate_witness :
    handleJoinConversation exStateC5 true "a" "c" =
      (exStateC5, [OutEvent.emitSelf "error"
        (Payload.errorInfo "You can only chat with friends")]) ∧
    handleJoinConversation exStateC5 true "a" "b" =
      ({ exStateC5 with rooms := [("a", generateConversationId "a" "b")] },
       [OutEvent.emitSelf "conversation-joined"
         (Payload.conversationJoined (generateConversationId "a" "b") "b")]) := by
  have h1 := (joinConversation_friend_gate exStateC5 "a" "c" exUserA (by decide)).1 (by decide)
  have h2 := (joinConversation_friend_gate exStateC5 "a" "b" exUserA (by decide)).2 (by decide)
  exact ⟨h1, h2⟩

/-- Claim C10: the send-message handler imposes no relationship between the
session user and the resolved message: even when the session user u is
neither the sender nor the receiver, the message is delivered to the stored
receiver's socket and published to the backbone. -/
theorem sendMessage_no_session_check (st : GWState) (u mid sid : String) (m : Msg)
    (hres : messageCache.get st.redis mid = some m ∨
            (messageCache.get st.redis mid = none ∧ findById st.store mid = some m))
    (hns : u ≠ m.sender) (hnr : u ≠ m.receiver)
    (hsock : auGet st.activeUsers m.receiver = some sid) :
    OutEvent.emit sid "receive-message" (Payload.message m) ∈
      (handleSendMessage st true u mid).2 ∧
    (∀ c, st.redis = some c → c.up = true →
      OutEvent.publish "new_message" (Payload.newMessagePub m m.receiver u) ∈
        (handleSendMessage st true u mid).2) := by
  rcases hres with hcache | ⟨hcache, hfind⟩
  · constructor
    · simp [handleSendMessage, hcache, sendDeliver, hsock]
      cases hred : st.redis with
      | none => simp
      | some c => by_cases hcup : c.up <;> simp [hcup]
    · intro c hc hcup
      rw [hc] at hcache
      simp [handleSendMessage, hcache, sendDeliver, hsock, hc, hcup]
  · constructor
    · simp [handleSendMessage, hcache, hfind, sendDeliver, hsock]
      cases hred : st.redis with
      | none => simp [messageCache.set]
      | some c =>
        by_cases hcup : c.up <;> simp [messageCache.set, hcup]
    · intro c hc hcup
      rw [hc] at hcache
      simp [handleSendMessage, hcache, hfind, sendDeliver, hsock, hc, hcup, messageCache.set]

/-- A persisted message from s to r. -/
def exMsgC10 : Msg :=
  { id := "m2", conversationId := "r_s", sender := "s", receiver := "r",
    messageType := "text", content := "yo", isRead := false, readAt := none,
    isDeleted := false, deletedAt := none }

/-- A state holding exMsgC10 with the receiver locally connected. -/
def exStateC10 : GWState :=
  { users := [], store := [exMsgC10], redis := some upClient,
    activeUsers := [("r", "sockR")], rooms := [], typingUsers := [] }

/-- Witness for claim C10: session user x, unrelated to message m2, still
causes delivery to r and a backbone publication. -/
theorem sendMessage_no_session_check_witness :
    OutEvent.emit "sockR" "receive-message" (Payload.message exMsgC10) ∈
      (handleSendMessage exStateC10 true "x" "m2").2 ∧
    OutEvent.publish "new_message" (Payload.newMessagePub exMsgC10 "r" "x") ∈
      (handleSendMessage exStateC10 true "x" "m2").2 := by
  have h := sendMessage_no_session_check exStateC10 "x" "m2" "sockR" exMsgC10
    (Or.inr ⟨by decide, by decide⟩) (by decide) (by decide) (by decide)
  exact ⟨h.1, h.2 upClient rfl rfl⟩

/-- A message from s to r, also present in the cache. -/
def exMsgC3 : Msg :=
  { id := "m3", conversationId := "r_s", sender := "s", receiver := "r",
    messageType := "text", content := "secret", isRead := false, readAt := none,
    isDeleted := false, deletedAt := none }

/-- A reachable backbone caching exMsgC3. -/
def exRedisC3 : RedisClient :=
  { up := true,
    data := { onlineSet := [], sessions := [],
              msgKV := [(messageKey "m3", exMsgC3, 3600)], typingKV := [] } }

/-- A state holding exMsgC3 with both participants locally connected. -/
def exStateC3 : GWState :=
  { users := [], store := [exMsgC3], redis := some exRedisC3,
    activeUsers := [("s", "sockS"), ("r", "sockR")], rooms := [], typingUsers := [] }

/-- Counterexample to claim C3: the delete-message socket handler checks
nothing about the requester. The receiver r — not the sender — triggers
delete-message for m3 and the cache entry is removed and the deletion
notification emitted; moreover even when the sender s triggers it, the Store
record is left with isDeleted still false: the handler performs no
soft-delete. -/
theorem socket_delete_counterexample :
    messageCache.get exStateC3.redis "m3" = some exMsgC3 ∧
    messageCache.get (handleDeleteMessage exStateC3 true "r" "m3").1.redis "m3" = none ∧
    OutEvent.emit "sockS" "message-deleted" (Payload.messageDeleted "m3") ∈
      (handleDeleteMessage exStateC3 true "r" "m3").2 ∧
    findById (handleDeleteMessage exStateC3 true "s" "m3").1.store "m3" = some exMsgC3 ∧
    exMsgC3.isDeleted = false := by
  decide

/-- Claim C3 amended: the delete-message socket handler, for any session user
and existing message, removes the cache entry and notifies the other
participant (the receiver when the requester is the sender, otherwise the
sender), without any sender check and without touching the Store record;
the sender-only gate and the soft-delete live in the HTTP-level deleteMessage
service, which refuses a non-sender and otherwise soft-deletes the record and
removes the cache entry. -/
theorem socket_delete_behavior (st : GWState) (u mid : String) (m : Msg) (now : Nat)
    (hfind : findById st.store mid = some m) :
    messageCache.get (handleDeleteMessage st true u mid).1.redis mid = none ∧
    (handleDeleteMessage st true u mid).1.store = st.store ∧
    (∀ sid, auGet st.activeUsers (if m.sender = u then m.receiver else m.sender) = some sid →
      OutEvent.emit sid "message-deleted" (Payload.messageDeleted mid) ∈
        (handleDeleteMessage st true u mid).2) ∧
    (m.sender ≠ u →
      deleteMessage st.store st.redis mid u now =
        Except.error "You can only delete messages you sent") ∧
    (m.sender = u →
      deleteMessage st.store st.redis mid u now =
        Except.ok (saveMsg st.store { m with isDeleted := true, deletedAt := some now },
                   messageCache.delete st.redis mid) ∧
      messageCache.get (messageCache.delete st.redis mid) mid = none) := by
  refine ⟨?_, ?_, ?_, ?_, ?_⟩
  · have hred : (handleDeleteMessage st true u mid).1.redis =
        messageCache.delete st.redis mid := by
      simp [handleDeleteMessage, hfind]
    rw [hred]
    exact messageCache.get_delete st.redis mid
  · simp [handleDeleteMessage, hfind]
  · intro sid hsid
    simp [handleDeleteMessage, hfind, hsid]
  · intro hne
    simp [deleteMessage, hfind, hne]
  · intro heq
    refine ⟨by simp [deleteMessage, hfind, heq], messageCache.get_delete st.redis mid⟩

/-- Witness for the amended claim C3: sender-side socket deletion on the
concrete state, and the service-level soft delete. -/
theorem socket_delete_behavior_witness :
    messageCache.get (handleDeleteMessage exStateC3 true "s" "m3").1.redis "m3" = none ∧
    (handleDeleteMessage exStateC3 true "s" "m3").1.store = exStateC3.store ∧
    OutEvent.emit "sockR" "message-deleted" (Payload.messageDeleted "m3") ∈
      (handleDeleteMessage exStateC3 true "s" "m3").2 ∧
    deleteMessage exStateC3.store exStateC3.redis "m3" "s" 9 =
      Except.ok (saveMsg exStateC3.store { exMsgC3 with isDeleted := true, deletedAt := some 9 },
                 messageCache.delete exStateC3.redis "m3") := by
  have h := socket_delete_behavior exStateC3 "s" "m3" exMsgC3 9 (by decide)
  exact ⟨h.1, h.2.1, h.2.2.1 "sockR" (by decide), (h.2.2.2.2 rfl).1⟩

/-- No local connection map entry survives its own deletion. -/
theorem auGet_auDelete (au : List (String × String)) (u : String) :
    auGet (auDelete au u) u = none := by
  have : (auDelete au u).find? (fun p => p.1 = u) = none := by
    rw [List.find?_eq_none]
    intro p hp
    have := (List.mem_filter.mp hp).2
    simpa using this
  simp [auGet, this]

/-- A user is offline after their Presence Registry removal, whatever the
client state. -/
theorem isOnline_after_remove (client : Option RedisClient) (u : String) :
    onlineUsers.isOnline (onlineUsers.remove client u) u = false := by
  match client with
  | none => rfl
  | some c =>
    by_cases hup : c.up
    · simp [onlineUsers.remove, onlineUsers.isOnline, hup, List.mem_filter]
    · simp [onlineUsers.remove, onlineUsers.isOnline, hup]

/-- After the disconnect cleanup of the local typing map, the user is in no
conversation set. -/
theorem tlClearUser_not_mem (tl : List (String × List String)) (u : String) :
    ∀ cid us, (cid, us) ∈ tlClearUser tl u → u ∉ us := by
  intro cid us hmem hu
  unfold tlClearUser at hmem
  obtain ⟨p, _, he⟩ := List.mem_map.mp (List.mem_filter.mp hmem).1
  have hus : p.2.filter (fun x => x ≠ u) = us := congrArg Prod.snd he
  rw [← hus] at hu
  have := (List.mem_filter.mp hu).2
  simp at this

/-- A reachable backbone where user a is online and has a live typing entry
for conversation a_b expiring at time 10. -/
def exRedisC7 : RedisClient :=
  { up := true,
    data := { onlineSet := ["a"], sessions := [("a", 0)], msgKV := [],
              typingKV := [(typingKey "a_b" "a", 10)] } }

/-- A state where a is connected and typing in a_b. -/
def exStateC7 : GWState :=
  { users := [], store := [], redis := some exRedisC7,
    activeUsers := [("a", "sockA")], rooms := [],
    typingUsers := [("a_b", ["a"])] }

/-- Counterexample to claim C7: immediately after the disconnect of user a,
the backbone TypingState entry for (a_b, a) still exists and still tests as
typing — the disconnect handler does not clear backbone TypingState entries
(only the local typing map), so they disappear only via their own TTL. -/
theorem disconnect_typing_counterexample :
    typingIndicators.isTyping exStateC7.redis "a_b" "a" 0 = true ∧
    typingIndicators.isTyping (handleDisconnect exStateC7 "a" 0).1.redis "a_b" "a" 0 = true := by
  decide

/-- Claim C7 amended: on disconnect the gateway removes the user from the
local connection map and from the Presence Registry, clears the user from
every local typing set, broadcasts user-offline locally and publishes it to
the backbone when reachable; the backbone TypingState entries involving the
user are left untouched (they expire via their own 5-second TTL). -/
theorem disconnect_cleanup (st : GWState) (u : String) (now : Nat) :
    auGet (handleDisconnect st u now).1.activeUsers u = none ∧
    onlineUsers.isOnline (handleDisconnect st u now).1.redis u = false ∧
    (∀ cid us, (cid, us) ∈ (handleDisconnect st u now).1.typingUsers → u ∉ us) ∧
    OutEvent.broadcast "user-offline" (Payload.userStatus u now) ∈
      (handleDisconnect st u now).2 ∧
    (∀ c, st.redis = some c → c.up = true →
      OutEvent.publish "user_status" (Payload.userStatusPub u false now) ∈
        (handleDisconnect st u now).2) ∧
    (∀ c c', st.redis = some c → (handleDisconnect st u now).1.redis = some c' →
      c'.data.typingKV = c.data.typingKV) := by
  refine ⟨?_, ?_, ?_, ?_, ?_, ?_⟩
  · have h : (handleDisconnect st u now).1.activeUsers = auDelete st.activeUsers u := by
      simp [handleDisconnect]
    rw [h]
    exact auGet_auDelete st.activeUsers u
  · have h : (handleDisconnect st u now).1.redis = onlineUsers.remove st.redis u := by
      simp [handleDisconnect]
    rw [h]
    exact isOnline_after_remove st.redis u
  · have h : (handleDisconnect st u now).1.typingUsers = tlClearUser st.typingUsers u := by
      simp [handleDisconnect]
    rw [h]
    exact tlClearUser_not_mem st.typingUsers u
  · simp [handleDisconnect]
  · intro c hc hcup
    simp [handleDisconnect, onlineUsers.remove, hc, hcup]
  · intro c c' hc hc'
    have h : (handleDisconnect st u now).1.redis = onlineUsers.remove st.redis u := by
      simp [handleDisconnect]
    rw [h, hc] at hc'
    by_cases hup : c.up
    · simp [onlineUsers.remove, hup] at hc'
      rw [← hc']
    · simp [onlineUsers.remove, hup] at hc'
      rw [← hc']

/-- Witness for the amended claim C7 on the concrete state exStateC7. -/
theorem disconnect_cleanup_witness :
    auGet (handleDisconnect exStateC7 "a" 4).1.activeUsers "a" = none ∧
    onlineUsers.isOnline (handleDisconnect exStateC7 "a" 4).1.redis "a" = false ∧
    OutEvent.broadcast "user-offline" (Payload.userStatus "a" 4) ∈
      (handleDisconnect exStateC7 "a" 4).2 ∧
    OutEvent.publish "user_status" (Payload.userStatusPub "a" false 4) ∈
      (handleDisconnect exStateC7 "a" 4).2 := by
  have h := disconnect_cleanup exStateC7 "a" 4
  exact ⟨h.1, h.2.1, h.2.2.2.1, h.2.2.2.2.1 exRedisC7 rfl rfl⟩

/-- A state with an empty store, a reachable empty backbone and the user
connected. -/
def exStateC8 : GWState :=
  { users := [], store := [], redis := some upClient,
    activeUsers := [("u", "sockU")], rooms := [], typingUsers := [] }

/-- Counterexample to claim C8: a mark-as-read whose message lookup misses,
and likewise one whose store call raises, emits no error event at all — the
handler swallows the failure and emits nothing, instead of emitting a scoped
error event to the triggering connection. -/
theorem relay_failure_counterexample :
    findById exStateC8.store "missing" = none ∧
    handleMarkAsRead exStateC8 true "u" "missing" 0 = (exStateC8, []) ∧
    handleMarkAsRead exStateC8 false "u" "missing" 0 = (exStateC8, []) := by
  decide

/-- Claim C8 amended: no relay step failure escapes a handler or mutates
state — every failing handler returns with the state unchanged — and the
error reporting is uneven: send-message and delete-message emit a scoped
error event to the triggering connection on a lookup miss or a raised store
call, while mark-as-read (and delete-message on a raised store call) swallow
the failure silently, emitting nothing. -/
theorem relay_failure_isolation (st : GWState) (u mid : String) (t : Nat) :
    (messageCache.get st.redis mid = none → findById st.store mid = none →
      handleSendMessage st true u mid =
        (st, [OutEvent.emitSelf "error" (Payload.errorInfo "Message not found")])) ∧
    (messageCache.get st.redis mid = none →
      handleSendMessage st false u mid =
        (st, [OutEvent.emitSelf "error" (Payload.errorInfo "Failed to send message")])) ∧
    (findById st.store mid = none →
      handleDeleteMessage st true u mid =
        (st, [OutEvent.emitSelf "error" (Payload.errorInfo "Message not found")])) ∧
    (findById st.store mid = none → handleMarkAsRead st true u mid t = (st, [])) ∧
    handleMarkAsRead st false u mid t = (st, []) ∧
    handleDeleteMessage st false u mid = (st, []) := by
  refine ⟨?_, ?_, ?_, ?_, ?_, ?_⟩
  · intro hcache hfind
    simp [handleSendMessage, hcache, hfind]
  · intro hcache
    simp [handleSendMessage, hcache]
  · intro hfind
    simp [handleDeleteMessage, hfind]
  · intro hfind
    simp [handleMarkAsRead, hfind]
  · simp [handleMarkAsRead]
  · simp [handleDeleteMessage]

/-- Witness for the amended claim C8 at the concrete state exStateC8. -/
theorem relay_failure_isolation_witness :
    handleSendMessage exStateC8 true "u" "missing" =
      (exStateC8, [OutEvent.emitSelf "error" (Payload.errorInfo "Message not found")]) ∧
    handleSendMessage exStateC8 false "u" "missing" =
      (exStateC8, [OutEvent.emitSelf "error" (Payload.errorInfo "Failed to send message")]) ∧
    handleDeleteMessage exStateC8 true "u" "missing" =
      (exStateC8, [OutEvent.emitSelf "error" (Payload.errorInfo "Message not found")]) := by
  have h := relay_failure_isolation exStateC8 "u" "missing" 0
  exact ⟨h.1 (by decide) (by decide), h.2.1 (by decide), h.2.2.1 (by decide)⟩

/-- Claim C9: for a successfully sent text message the cache entry keyed by
the message id exists immediately after the send, stored with TTL 3600; a
deletion by the sender then removes the cache entry while the Store record is
soft-deleted — still present, merely flagged — not hard-deleted. -/
theorem send_cache_delete_lifecycle (users : List UserRec) (store : Store) (c : RedisClient)
    (sid rid content newId : String) (sender : UserRec) (now : Nat)
    (hs : findUser users sid = some sender) (hf : rid ∈ sender.friends)
    (hup : c.up = true) (hnew : findById store newId = none) :
    ∃ store1 redis1 m,
      sendTextMessage users store (some c) sid rid content newId =
        Except.ok (store1, redis1, m) ∧
      messageCache.get redis1 newId = some m ∧
      (∃ c1, redis1 = some c1 ∧ (messageKey newId, m, 3600) ∈ c1.data.msgKV) ∧
      ∃ store2 redis2,
        deleteMessage store1 redis1 newId sid now = Except.ok (store2, redis2) ∧
        messageCache.get redis2 newId = none ∧
        findById store2 newId = some { m with isDeleted := true, deletedAt := some now } ∧
        store2.length = store1.length := by
  refine ⟨store ++ [newTextMsg sid rid content newId],
          messageCache.set (some c) newId (newTextMsg sid rid content newId) 3600,
          newTextMsg sid rid content newId, ?_, ?_, ?_, ?_⟩
  · simp [sendTextMessage, checkFriendship, hs, hf]
  · simp [messageCache.set, messageCache.get, hup]
  · refine ⟨{ c with data := { c.data with
        msgKV := (messageKey newId, newTextMsg sid rid content newId, 3600) ::
                 c.data.msgKV.filter (fun e => e.1 ≠ messageKey newId) } }, ?_, ?_⟩
    · simp [messageCache.set, hup]
    · simp
  · have hid : (newTextMsg sid rid content newId).id = newId := rfl
    have hfind1 : findById (store ++ [newTextMsg sid rid content newId]) newId =
        some (newTextMsg sid rid content newId) := by
      rw [← hid]
      exact findById_append_fresh store (newTextMsg sid rid content newId) (hid ▸ hnew)
    refine ⟨saveMsg (store ++ [newTextMsg sid rid content newId])
              { newTextMsg sid rid content newId with isDeleted := true, deletedAt := some now },
            messageCache.delete
              (messageCache.set (some c) newId (newTextMsg sid rid content newId) 3600) newId,
            ?_, ?_, ?_, ?_⟩
    · unfold deleteMessage
      rw [hfind1]
      simp [newTextMsg]
    · exact messageCache.get_delete _ newId
    · rw [← hid]
      exact findById_saveMsg (store ++ [newTextMsg sid rid content newId])
        (newTextMsg sid rid content newId) _ (hid ▸ hfind1) rfl
    · simp [saveMsg]

/-- Witness for claim C9 on concrete friends a and b. -/
theorem send_cache_delete_lifecycle_witness :
    ∃ store1 redis1 m,
      sendTextMessage [exUserA] [] (some upClient) "a" "b" "hello" "m9" =
        Except.ok (store1, redis1, m) ∧
      messageCache.get redis1 "m9" = some m ∧
      (∃ c1, redis1 = some c1 ∧ (messageKey "m9", m, 3600) ∈ c1.data.msgKV) ∧
      ∃ store2 redis2,
        deleteMessage store1 redis1 "m9" "a" 42 = Except.ok (store2, redis2) ∧
        messageCache.get redis2 "m9" = none ∧
        findById store2 "m9" = some { m with isDeleted := true, deletedAt := some 42 } ∧
        store2.length = store1.length :=
  send_cache_delete_lifecycle [exUserA] [] upClient "a" "b" "hello" "m9" exUserA 42
    (by decide) (by decide) rfl (by decide)

end Chatter
